import Mathlib

/-!
Verification of the caching layer of the BU Library booking backend
(`bub-backend/cache_manager.py`).

The development shallowly embeds `CacheManager` and its helpers:
Python values become `PyVal`, `json.dumps` becomes `pyJson`,
`hashlib.md5(...).hexdigest()` becomes `md5HexChars`, in-memory dict state
becomes explicit association lists, and wall-clock time is passed
explicitly as a natural number of seconds.
-/

namespace BuLib

/-! ## 32-bit helpers (machine integers as `Nat` reduced mod 2^32) -/

def m32 (x : Nat) : Nat := x % 4294967296

def rotl32 (x s : Nat) : Nat := m32 (x <<< s) ||| (x >>> (32 - s))

def not32 (x : Nat) : Nat := x ^^^ 4294967295

/-! ## MD5 (RFC 1321), embedding `hashlib.md5` -/

/-- Per-round additive constants `K[i] = floor(abs(sin(i+1)) * 2^32)`. -/
def mdK : List Nat :=
  [0xd76aa478, 0xe8c7b756, 0x242070db, 0xc1bdceee,
   0xf57c0faf, 0x4787c62a, 0xa8304613, 0xfd469501,
   0x698098d8, 0x8b44f7af, 0xffff5bb1, 0x895cd7be,
   0x6b901122, 0xfd987193, 0xa679438e, 0x49b40821,
   0xf61e2562, 0xc040b340, 0x265e5a51, 0xe9b6c7aa,
   0xd62f105d, 0x02441453, 0xd8a1e681, 0xe7d3fbc8,
   0x21e1cde6, 0xc33707d6, 0xf4d50d87, 0x455a14ed,
   0xa9e3e905, 0xfcefa3f8, 0x676f02d9, 0x8d2a4c8a,
   0xfffa3942, 0x8771f681, 0x6d9d6122, 0xfde5380c,
   0xa4beea44, 0x4bdecfa9, 0xf6bb4b60, 0xbebfbc70,
   0x289b7ec6, 0xeaa127fa, 0xd4ef3085, 0x04881d05,
   0xd9d4d039, 0xe6db99e5, 0x1fa27cf8, 0xc4ac5665,
   0xf4292244, 0x432aff97, 0xab9423a7, 0xfc93a039,
   0x655b59c3, 0x8f0ccc92, 0xffeff47d, 0x85845dd1,
   0x6fa87e4f, 0xfe2ce6e0, 0xa3014314, 0x4e0811a1,
   0xf7537e82, 0xbd3af235, 0x2ad7d2bb, 0xeb86d391]

/-- Per-round left-rotation amounts. -/
def mdS : List Nat :=
  [7, 12, 17, 22, 7, 12, 17, 22, 7, 12, 17, 22, 7, 12, 17, 22,
   5,  9, 14, 20, 5,  9, 14, 20, 5,  9, 14, 20, 5,  9, 14, 20,
   4, 11, 16, 23, 4, 11, 16, 23, 4, 11, 16, 23, 4, 11, 16, 23,
   6, 10, 15, 21, 6, 10, 15, 21, 6, 10, 15, 21, 6, 10, 15, 21]

/-- Little-endian byte list of width `n` for `x`. -/
def toLEBytes : Nat → Nat → List Nat
  | 0, _ => []
  | n + 1, x => (x % 256) :: toLEBytes n (x / 256)

/-- RFC 1321 padding: a 0x80 byte, zeros to 56 mod 64, then the 64-bit
little-endian bit length. -/
def md5Pad (msg : List Nat) : List Nat :=
  let z := (119 - msg.length % 64) % 64
  msg ++ [0x80] ++ List.replicate z 0 ++ toLEBytes 8 (8 * msg.length)

/-- Little-endian 32-bit word from four bytes. -/
def leWord (b0 b1 b2 b3 : Nat) : Nat := b0 + 256 * b1 + 65536 * b2 + 16777216 * b3

/-- Split a 64-byte block into sixteen little-endian 32-bit words. -/
def blockWords : List Nat → List Nat
  | b0 :: b1 :: b2 :: b3 :: rest => leWord b0 b1 b2 b3 :: blockWords rest
  | _ => []

/-- One MD5 round step on the running state `(a, b, c, d)`. -/
def md5Round (M : List Nat) (st : Nat × Nat × Nat × Nat) (i : Nat) :
    Nat × Nat × Nat × Nat :=
  let (a, b, c, d) := st
  let fg : Nat × Nat :=
    if i < 16 then ((b &&& c) ||| (not32 b &&& d), i)
    else if i < 32 then ((d &&& b) ||| (not32 d &&& c), (5 * i + 1) % 16)
    else if i < 48 then (b ^^^ c ^^^ d, (3 * i + 5) % 16)
    else (c ^^^ (b ||| not32 d), (7 * i) % 16)
  let f := m32 (fg.1 + a + mdK.getD i 0 + M.getD fg.2 0)
  (d, m32 (b + rotl32 f (mdS.getD i 0)), b, c)

/-- Compress one 64-byte block into the chaining state. -/
def md5Block (st : Nat × Nat × Nat × Nat) (block : List Nat) :
    Nat × Nat × Nat × Nat :=
  let M := blockWords block
  let r := (List.range 64).foldl (md5Round M) st
  (m32 (st.1 + r.1), m32 (st.2.1 + r.2.1), m32 (st.2.2.1 + r.2.2.1),
   m32 (st.2.2.2 + r.2.2.2))

/-- Fold `n` consecutive 64-byte blocks of `l` into the state. -/
def md5Blocks (st : Nat × Nat × Nat × Nat) (l : List Nat) : Nat → Nat × Nat × Nat × Nat
  | 0 => st
  | n + 1 => md5Blocks (md5Block st (l.take 64)) (l.drop 64) n

def hexDigit (n : Nat) : Char :=
  if n < 10 then Char.ofNat (48 + n) else Char.ofNat (87 + n)

/-- Two lowercase hex characters for one byte. -/
def byteHexChars (b : Nat) : List Char := [hexDigit (b / 16), hexDigit (b % 16)]

/-- Hex rendering of a 32-bit word, least significant byte first (as in
`hexdigest`). -/
def wordLEHexChars (w : Nat) : List Char :=
  byteHexChars (w % 256) ++ byteHexChars (w / 256 % 256) ++
  byteHexChars (w / 65536 % 256) ++ byteHexChars (w / 16777216 % 256)

/-- The 32 characters of `hashlib.md5(msg).hexdigest()`. -/
def md5HexChars (msg : List Nat) : List Char :=
  let p := md5Pad msg
  let r := md5Blocks (0x67452301, 0xefcdab89, 0x98badcfe, 0x10325476) p (p.length / 64)
  wordLEHexChars r.1 ++ wordLEHexChars r.2.1 ++ wordLEHexChars r.2.2.1 ++
  wordLEHexChars r.2.2.2

/-! ## UTF-8 encoding, embedding `str.encode()` -/

def charUtf8 (c : Char) : List Nat :=
  let n := c.toNat
  if n < 0x80 then [n]
  else if n < 0x800 then [0xC0 ||| (n >>> 6), 0x80 ||| (n &&& 0x3F)]
  else if n < 0x10000 then
    [0xE0 ||| (n >>> 12), 0x80 ||| ((n >>> 6) &&& 0x3F), 0x80 ||| (n &&& 0x3F)]
  else
    [0xF0 ||| (n >>> 18), 0x80 ||| ((n >>> 12) &&& 0x3F),
     0x80 ||| ((n >>> 6) &&& 0x3F), 0x80 ||| (n &&& 0x3F)]

def utf8Bytes (s : String) : List Nat := s.toList.foldr (fun c acc => charUtf8 c ++ acc) []

/-! ## Python values and `json.dumps`

`PyVal` covers the values the cache layer handles: JSON primitives,
lists, string-keyed dicts (as ordered association lists, mirroring
Python's insertion-ordered dicts), plus `pobj`, a stand-in for any
object `json.dumps` rejects with a `TypeError`. -/

inductive PyVal where
  | pstr : String → PyVal
  | pint : Int → PyVal
  | pbool : Bool → PyVal
  | pnone : PyVal
  | plist : List PyVal → PyVal
  | pdict : List (String × PyVal) → PyVal
  | pobj : PyVal

def hexDigit4Chars (n : Nat) : List Char :=
  [hexDigit (n / 4096 % 16), hexDigit (n / 256 % 16), hexDigit (n / 16 % 16),
   hexDigit (n % 16)]

/-- `json.dumps` escaping of one character (default `ensure_ascii=True`:
every code point at or above 0x7f is `\uXXXX`-escaped, astral code points
as a surrogate pair). -/
def jsonEscapeChar (c : Char) : List Char :=
  if c = '"' then ['\\', '"']
  else if c = '\\' then ['\\', '\\']
  else if c = Char.ofNat 8 then ['\\', 'b']
  else if c = Char.ofNat 9 then ['\\', 't']
  else if c = Char.ofNat 10 then ['\\', 'n']
  else if c = Char.ofNat 12 then ['\\', 'f']
  else if c = Char.ofNat 13 then ['\\', 'r']
  else if c.toNat < 0x20 then '\\' :: 'u' :: hexDigit4Chars c.toNat
  else if c.toNat < 0x7f then [c]
  else if c.toNat < 0x10000 then '\\' :: 'u' :: hexDigit4Chars c.toNat
  else
    let v := c.toNat - 0x10000
    ('\\' :: 'u' :: hexDigit4Chars (0xD800 + v / 1024)) ++
    ('\\' :: 'u' :: hexDigit4Chars (0xDC00 + v % 1024))

/-- A JSON string literal, double-quoted and escaped. -/
def jsonQuote (s : String) : String :=
  "\"" ++ String.mk (s.toList.foldr (fun c acc => jsonEscapeChar c ++ acc) []) ++ "\""

/-- Python `str` lexicographic comparison by code point, as `sorted` uses. -/
def charListLe : List Char → List Char → Bool
  | [], _ => true
  | _ :: _, [] => false
  | a :: as, b :: bs =>
    if a.toNat < b.toNat then true
    else if b.toNat < a.toNat then false
    else charListLe as bs

def strLe (a b : String) : Bool := charListLe a.toList b.toList

/-- Key order on already-serialized dict items (`sort_keys=True`; dict keys
are unique, so comparison never reaches the values). -/
def pairLe (p q : String × String) : Prop := strLe p.1 q.1 = true

instance : DecidableRel pairLe := fun p q =>
  inferInstanceAs (Decidable (strLe p.1 q.1 = true))

/-- `sort_keys=True` ordering of serialized dict items. -/
def sortPairs (l : List (String × String)) : List (String × String) :=
  List.insertionSort pairLe l

mutual
/-- `json.dumps(v)` (with `sort_keys` when `sk`); `none` models the
`TypeError` raised on a non-serializable value. Each dict value is
serialized independently of key order, so serializing first and sorting
the `(key, rendered value)` items afterwards renders exactly Python's
output. -/
def pyJson (sk : Bool) : PyVal → Option String
  | .pstr s => some (jsonQuote s)
  | .pint n => some (toString n)
  | .pbool true => some "true"
  | .pbool false => some "false"
  | .pnone => some "null"
  | .pobj => none
  | .plist l =>
    match pyJsonList sk l with
    | none => none
    | some parts => some ("[" ++ String.intercalate ", " parts ++ "]")
  | .pdict l =>
    match pyJsonPairs sk l with
    | none => none
    | some items =>
      let items2 := if sk then sortPairs items else items
      some ("\x7b" ++
        String.intercalate ", " (items2.map (fun p => jsonQuote p.1 ++ ": " ++ p.2)) ++
        "\x7d")

def pyJsonList (sk : Bool) : List PyVal → Option (List String)
  | [] => some []
  | v :: vs =>
    match pyJson sk v, pyJsonList sk vs with
    | some s, some ss => some (s :: ss)
    | _, _ => none

def pyJsonPairs (sk : Bool) : List (String × PyVal) → Option (List (String × String))
  | [] => some []
  | p :: ps =>
    match pyJson sk p.2, pyJsonPairs sk ps with
    | some s, some ss => some ((p.1, s) :: ss)
    | _, _ => none
end

/-! ## Dict primitives (Python string-keyed dicts as ordered assoc lists) -/

/-- `d[k] = v`: replace the binding in place if the key exists, else append
(Python dicts keep insertion order and have unique keys). -/
def dictSet {α : Type} : List (String × α) → String → α → List (String × α)
  | [], k, v => [(k, v)]
  | p :: rest, k, v => if p.1 = k then (k, v) :: rest else p :: dictSet rest k v

/-- `d.get(k)` / `k in d` lookup. -/
def dictFind {α : Type} : List (String × α) → String → Option α
  | [], _ => none
  | p :: rest, k => if p.1 = k then some p.2 else dictFind rest k

/-- `del d[k]` (no-op when absent; callers guard with `k in d`). -/
def dictErase {α : Type} : List (String × α) → String → List (String × α)
  | [], _ => []
  | p :: rest, k => if p.1 = k then rest else p :: dictErase rest k

/-- Occurrence of `sub` as a contiguous run of `hay`. -/
def listInfix (hay sub : List Char) : Bool :=
  match hay with
  | [] => sub.isEmpty
  | _ :: t => sub.isPrefixOf hay || listInfix t sub

/-- Python `sub in s` substring test. -/
def strContains (hay sub : String) : Bool := listInfix hay.toList sub.toList

/-- Replace non-overlapping occurrences of the NONEMPTY word `old` by `new`,
left to right; `fuel` (the initial text length) only bounds the recursion,
each step consumes at least one character. -/
def replaceListFuel (old new : List Char) : Nat → List Char → List Char
  | 0, l => l
  | _ + 1, [] => []
  | fuel + 1, c :: rest =>
    if old.isPrefixOf (c :: rest) then
      new ++ replaceListFuel old new fuel (List.drop (old.length - 1) rest)
    else c :: replaceListFuel old new fuel rest

/-- Python `s.replace(old, new)` for nonempty `old` (the cache code only
calls it as `pattern.replace('*', '')`). -/
def pyReplace (s old new : String) : String :=
  String.mk (replaceListFuel old.toList new.toList s.toList.length s.toList)

/-! ## The CacheManager state

`memory_cache` maps keys to `{'data': ..., 'expires_at': ...}` entries;
`redis_client` is `None` or a model of the external `redis` client, whose
behavior (hit/miss/raise per operation) is an oracle, since the redis
library is outside this repository. A `.hit v` models a truthy reply that
`json.loads` decodes to `v`; `rsetex`/`rkeys`/`rdel` return `false`/`none`
to model a raised exception. Wall-clock `time.time()` is the explicit
`now` argument (in seconds). -/

structure MemEntry where
  data : PyVal
  expires_at : Nat

inductive RGet where
  | hit : PyVal → RGet
  | miss : RGet
  | err : RGet

structure RemoteModel where
  rget : String → RGet
  rsetex : String → Nat → String → Bool
  rkeys : String → Option (List String)
  rdel : List String → Option Nat

structure CacheManager where
  redis_client : Option RemoteModel
  memory_cache : List (String × MemEntry)
  default_ttl : Nat

/-- `str(building_id)` for the `Union[str, int]` argument, plus Python
truthiness for `if building_id:`. -/
inductive BId where
  | bstr : String → BId
  | bint : Int → BId

def BId.str : BId → String
  | .bstr s => s
  | .bint n => toString n

def BId.truthy : BId → Bool
  | .bstr s => !s.isEmpty
  | .bint n => n != 0

/-- `CacheManager._generate_key(prefix, params)`:
`json.dumps(params, sort_keys=True)`, md5, first 8 hex chars,
`"bulib:<prefix>:<hash>"`. `none` models the `TypeError` escaping from
`json.dumps` (the method has no try/except of its own). -/
def generate_key (ns : String) (params : List (String × PyVal)) : Option String :=
  match pyJson true (.pdict params) with
  | none => none
  | some sorted_params =>
    some ("bulib:" ++ ns ++ ":" ++
      String.mk ((md5HexChars (utf8Bytes sorted_params)).take 8))

/-- The memory-tier half of `CacheManager.get`: return an unexpired entry,
delete an expired one (lazy expiration), else report a miss (`None`). -/
def cmGetMem (cm : CacheManager) (key : String) (now : Nat) :
    Option PyVal × CacheManager :=
  match dictFind cm.memory_cache key with
  | some entry =>
    if now < entry.expires_at then (some entry.data, cm)
    else (none, { cm with memory_cache := dictErase cm.memory_cache key })
  | none => (none, cm)

/-- `CacheManager.get(key)`: try Redis first; a truthy reply is decoded and
returned without consulting memory; a raised exception is caught by the
surrounding try/except and reported as `None`; otherwise fall back to the
memory tier. -/
def cmGet (cm : CacheManager) (key : String) (now : Nat) :
    Option PyVal × CacheManager :=
  match cm.redis_client with
  | some r =>
    match r.rget key with
    | .hit v => (some v, cm)
    | .err => (none, cm)
    | .miss => cmGetMem cm key now
  | none => cmGetMem cm key now

/-- `CacheManager.set(key, data, ttl)`: `ttl = ttl or self.default_ttl`
(so an explicit 0 falls back to the default), serialize (a `TypeError`
is caught and reported as `False`), write Redis with `setex` (a raised
exception is caught and reported as `False`, skipping the memory write,
which textually follows the `setex` call), then write the memory tier and
report `True`. -/
def cmSet (cm : CacheManager) (key : String) (data : PyVal) (ttl : Option Nat)
    (now : Nat) : Bool × CacheManager :=
  let t := match ttl with
    | none => cm.default_ttl
    | some n => if n = 0 then cm.default_ttl else n
  match pyJson false data with
  | none => (false, cm)
  | some serialized_data =>
    let memWrite : Bool × CacheManager :=
      (true, { cm with memory_cache := dictSet cm.memory_cache key ⟨data, now + t⟩ })
    match cm.redis_client with
    | some r => if r.rsetex key t serialized_data then memWrite else (false, cm)
    | none => memWrite

/-- `CacheManager.delete(key)`: Redis delete (a raised exception aborts with
`False` before the memory delete), then memory delete, `True`. -/
def cmDelete (cm : CacheManager) (key : String) : Bool × CacheManager :=
  let memDel : Bool × CacheManager :=
    (true, { cm with memory_cache := dictErase cm.memory_cache key })
  match cm.redis_client with
  | some r =>
    match r.rdel [key] with
    | none => (false, cm)
    | some _ => memDel
  | none => memDel

/-- `CacheManager.clear_pattern(pattern)`: Redis `keys(pattern)` then
`delete(*keys)` when nonempty (an exception anywhere aborts with count 0,
leaving memory untouched); the memory tier is then scanned with the
SUBSTRING test `pattern.replace('*', '') in k`, each match deleted and
counted. -/
def cmClearPattern (cm : CacheManager) (pattern : String) : Nat × CacheManager :=
  let sub := pyReplace pattern "*" ""
  let memAfter := cm.memory_cache.filter (fun p => !strContains p.1 sub)
  let memCount := (cm.memory_cache.filter (fun p => strContains p.1 sub)).length
  let memPart : Nat → Nat × CacheManager := fun base =>
    (base + memCount, { cm with memory_cache := memAfter })
  match cm.redis_client with
  | none => memPart 0
  | some r =>
    match r.rkeys pattern with
    | none => (0, cm)
    | some ks =>
      if ks.isEmpty then memPart 0
      else
        match r.rdel ks with
        | none => (0, cm)
        | some n => memPart n

/-! ## Domain helpers

Each helper takes `filters : Option ...` (`none` models Python `None`);
`filters = filters or {}` rebinds the local name to a FRESH dict whenever
the caller's argument is `None` or an empty (falsy) dict, so in-place
mutation of the filter dict is visible to the caller only when the caller
passed a nonempty dict. The room helpers return, alongside the result,
the content of the caller's dict after the call, to make that visible
mutation explicit. An outer `none` models a `TypeError` from
`_generate_key` (or from serializing the payload inside `json.dumps`
before any except-clause of the caller) propagating to the caller —
note `set`'s own try/except does catch payload serialization, so only
`_generate_key` can actually raise here. -/

def get_cached_buildings (cm : CacheManager)
    (filters : Option (List (String × PyVal))) (now : Nat) :
    Option (Option PyVal × CacheManager) :=
  let fl := filters.getD []
  match generate_key "buildings" fl with
  | none => none
  | some key => some (cmGet cm key now)

def cache_buildings (cm : CacheManager) (data : PyVal)
    (filters : Option (List (String × PyVal))) (ttl : Nat) (now : Nat) :
    Option (Bool × CacheManager) :=
  let fl := filters.getD []
  match generate_key "buildings" fl with
  | none => none
  | some key => some (cmSet cm key data (some ttl) now)

def get_cached_rooms (cm : CacheManager) (building_id : BId)
    (filters : Option (List (String × PyVal))) (now : Nat) :
    Option (Option PyVal × CacheManager × Option (List (String × PyVal))) :=
  let fl0 := filters.getD []
  let fl := dictSet fl0 "building_id" (.pstr building_id.str)
  let callerAfter : Option (List (String × PyVal)) :=
    match filters with
    | none => none
    | some l => if l.isEmpty then some l else some fl
  match generate_key "rooms" fl with
  | none => none
  | some key =>
    let r := cmGet cm key now
    some (r.1, r.2, callerAfter)

def cache_rooms (cm : CacheManager) (building_id : BId) (data : PyVal)
    (filters : Option (List (String × PyVal))) (ttl : Nat) (now : Nat) :
    Option (Bool × CacheManager × Option (List (String × PyVal))) :=
  let fl0 := filters.getD []
  let fl := dictSet fl0 "building_id" (.pstr building_id.str)
  let callerAfter : Option (List (String × PyVal)) :=
    match filters with
    | none => none
    | some l => if l.isEmpty then some l else some fl
  match generate_key "rooms" fl with
  | none => none
  | some key =>
    let r := cmSet cm key data (some ttl) now
    some (r.1, r.2, callerAfter)

def get_cached_bookings (cm : CacheManager)
    (filters : Option (List (String × PyVal))) (now : Nat) :
    Option (Option PyVal × CacheManager) :=
  let fl := filters.getD []
  match generate_key "bookings" fl with
  | none => none
  | some key => some (cmGet cm key now)

def cache_bookings (cm : CacheManager) (data : PyVal)
    (filters : Option (List (String × PyVal))) (ttl : Nat) (now : Nat) :
    Option (Bool × CacheManager) :=
  let fl := filters.getD []
  match generate_key "bookings" fl with
  | none => none
  | some key => some (cmSet cm key data (some ttl) now)

def invalidate_bookings (cm : CacheManager) : Nat × CacheManager :=
  cmClearPattern cm "bulib:bookings:*"

/-- `invalidate_rooms(building_id=None)`: with a truthy id the pattern is
the f-string `"bulib:rooms:*building_id*<id>*"`, else `"bulib:rooms:*"`. -/
def invalidate_rooms (cm : CacheManager) (building_id : Option BId) :
    Nat × CacheManager :=
  match building_id with
  | some b =>
    if b.truthy then cmClearPattern cm ("bulib:rooms:*building_id*" ++ b.str ++ "*")
    else cmClearPattern cm "bulib:rooms:*"
  | none => cmClearPattern cm "bulib:rooms:*"

def invalidate_buildings (cm : CacheManager) : Nat × CacheManager :=
  cmClearPattern cm "bulib:buildings:*"

/-- Lowercase hex digit predicate, for the key-format statements. -/
def isHexChar (c : Char) : Bool :=
  decide (48 ≤ c.toNat ∧ c.toNat ≤ 57) || decide (97 ≤ c.toNat ∧ c.toNat ≤ 102)

/-! ## Lemmas: dict primitives -/

theorem dictFind_dictSet {α : Type} (m : List (String × α)) (k : String) (v : α) :
    dictFind (dictSet m k v) k = some v := by
  induction m with
  | nil => simp [dictSet, dictFind]
  | cons p rest ih =>
    by_cases h : p.1 = k
    · simp [dictSet, dictFind, h]
    · simp [dictSet, dictFind, h, ih]

theorem dictFind_mem {α : Type} {m : List (String × α)} {k : String} {e : α}
    (h : dictFind m k = some e) : (k, e) ∈ m := by
  induction m with
  | nil => simp [dictFind] at h
  | cons p rest ih =>
    by_cases hp : p.1 = k
    · simp only [dictFind, hp, if_pos] at h
      have : (k, e) = p := by
        cases p
        simp_all
      simp [this]
    · simp only [dictFind, hp, if_neg, if_false] at h
      exact List.mem_cons_of_mem _ (ih h)

theorem dictFind_eq_none {α : Type} {m : List (String × α)} {k : String}
    (h : ∀ p ∈ m, p.1 ≠ k) : dictFind m k = none := by
  induction m with
  | nil => rfl
  | cons p rest ih =>
    have hp := h p (by simp)
    simp only [dictFind, hp, if_neg, if_false]
    exact ih fun q hq => h q (List.mem_cons_of_mem _ hq)

theorem mem_dictSet {α : Type} {m : List (String × α)} {k : String} {v : α} {p : String × α}
    (h : p ∈ dictSet m k v) : p ∈ m ∨ p = (k, v) := by
  induction m with
  | nil => simp [dictSet] at h; simp [h]
  | cons q rest ih =>
    by_cases hq : q.1 = k
    · simp only [dictSet, hq, if_pos] at h
      rcases List.mem_cons.1 h with h | h
      · exact .inr h
      · exact .inl (List.mem_cons_of_mem _ h)
    · simp only [dictSet, hq, if_neg, if_false] at h
      rcases List.mem_cons.1 h with h | h
      · exact .inl (by simp [h])
      · rcases ih h with h | h
        · exact .inl (List.mem_cons_of_mem _ h)
        · exact .inr h

/-! ## Lemmas: string order (`sorted` key comparison) -/

theorem char_toNat_inj {a b : Char} (h : a.toNat = b.toNat) : a = b := by
  have ha := Char.ofNat_toNat a
  rw [h, Char.ofNat_toNat] at ha
  exact ha.symm

theorem charListLe_total : ∀ a b : List Char,
    charListLe a b = true ∨ charListLe b a = true
  | [], _ => .inl rfl
  | _ :: _, [] => .inr rfl
  | a :: as, b :: bs => by
    simp only [charListLe]
    rcases Nat.lt_trichotomy a.toNat b.toNat with h | h | h
    · left
      simp [h]
    · have h1 : ¬ a.toNat < b.toNat := by omega
      have h2 : ¬ b.toNat < a.toNat := by omega
      simpa [h1, h2, h] using charListLe_total as bs
    · right
      simp [h]

theorem charListLe_trans : ∀ a b c : List Char,
    charListLe a b = true → charListLe b c = true → charListLe a c = true
  | [], _, _, _, _ => rfl
  | _ :: _, [], _, h, _ => by simp [charListLe] at h
  | _ :: _, _ :: _, [], _, h2 => by simp [charListLe] at h2
  | a :: as, b :: bs, c :: cs, h1, h2 => by
    simp only [charListLe] at h1 h2 ⊢
    rcases Nat.lt_trichotomy a.toNat b.toNat with hab | hab | hab
    · rcases Nat.lt_trichotomy b.toNat c.toNat with hbc | hbc | hbc
      · rw [if_pos (by omega)]
      · rw [if_pos (by omega)]
      · rw [if_neg (by omega), if_pos (by omega)] at h2
        simp at h2
    · rw [if_neg (by omega), if_neg (by omega)] at h1
      rcases Nat.lt_trichotomy b.toNat c.toNat with hbc | hbc | hbc
      · rw [if_pos (by omega)]
      · rw [if_neg (by omega), if_neg (by omega)] at h2
        rw [if_neg (by omega), if_neg (by omega)]
        exact charListLe_trans as bs cs h1 h2
      · rw [if_neg (by omega), if_pos (by omega)] at h2
        simp at h2
    · rw [if_neg (by omega), if_pos (by omega)] at h1
      simp at h1

theorem charListLe_antisymm : ∀ a b : List Char,
    charListLe a b = true → charListLe b a = true → a = b
  | [], [], _, _ => rfl
  | [], _ :: _, _, h2 => by simp [charListLe] at h2
  | _ :: _, [], h1, _ => by simp [charListLe] at h1
  | a :: as, b :: bs, h1, h2 => by
    simp only [charListLe] at h1 h2
    rcases Nat.lt_trichotomy a.toNat b.toNat with hab | hab | hab
    · rw [if_neg (by omega), if_pos (by omega)] at h2
      simp at h2
    · rw [if_neg (by omega), if_neg (by omega)] at h1
      rw [if_neg (by omega), if_neg (by omega)] at h2
      have hh : a = b := char_toNat_inj hab
      rw [hh, charListLe_antisymm as bs h1 h2]
    · rw [if_neg (by omega), if_pos (by omega)] at h1
      simp at h1

theorem strLe_total (a b : String) : strLe a b = true ∨ strLe b a = true :=
  charListLe_total a.toList b.toList

theorem strLe_trans {a b c : String} (h1 : strLe a b = true) (h2 : strLe b c = true) :
    strLe a c = true :=
  charListLe_trans a.toList b.toList c.toList h1 h2

theorem strLe_antisymm {a b : String} (h1 : strLe a b = true) (h2 : strLe b a = true) :
    a = b := by
  have h := charListLe_antisymm a.toList b.toList h1 h2
  cases a
  cases b
  simp only [String.toList] at h
  rw [h]

instance : IsTotal (String × String) pairLe := ⟨fun p q => strLe_total p.1 q.1⟩

instance : IsTrans (String × String) pairLe :=
  ⟨fun _ _ _ h1 h2 => strLe_trans h1 h2⟩

/-- Strict key order: antisymmetric (vacuously), used to identify the two
sorted permutations. -/
def pairLt (p q : String × String) : Prop := pairLe p q ∧ p.1 ≠ q.1

instance : IsAntisymm (String × String) pairLt :=
  ⟨fun _ _ h1 h2 => absurd (strLe_antisymm h1.1 h2.1) h1.2⟩

/-! ## Lemmas: serialization -/

theorem pyJsonPairs_isSome_iff (sk : Bool) :
    ∀ l : List (String × PyVal),
      (pyJsonPairs sk l).isSome ↔ ∀ p ∈ l, (pyJson sk p.2).isSome
  | [] => by simp [pyJsonPairs]
  | p :: ps => by
    have ih := pyJsonPairs_isSome_iff sk ps
    simp only [pyJsonPairs, List.forall_mem_cons]
    cases hv : pyJson sk p.2 <;> cases hps : pyJsonPairs sk ps <;> simp_all
    exact ih

theorem pyJsonPairs_eq_map {sk : Bool} :
    ∀ {l : List (String × PyVal)} {ps : List (String × String)},
      pyJsonPairs sk l = some ps →
      ps = l.map (fun p => (p.1, (pyJson sk p.2).getD "")) := by
  intro l
  induction l with
  | nil => intro ps h; simp [pyJsonPairs] at h; simp [h.symm]
  | cons p rest ih =>
    intro ps h
    cases hv : pyJson sk p.2 <;> cases hr : pyJsonPairs sk rest <;>
      simp [pyJsonPairs, hv, hr] at h
    simp [h.symm, ih hr, hv]

/-- Two content-equal dicts (same bindings, any insertion order, unique
keys) have the same `sort_keys=True` serialization. -/
theorem pyJson_pdict_perm {f1 f2 : List (String × PyVal)}
    (hperm : f1.Perm f2) (hnodup : (f1.map Prod.fst).Nodup) :
    pyJson true (.pdict f1) = pyJson true (.pdict f2) := by
  have hmem : (pyJsonPairs true f1).isSome ↔ (pyJsonPairs true f2).isSome := by
    rw [pyJsonPairs_isSome_iff, pyJsonPairs_isSome_iff]
    exact ⟨fun h p hp => h p (hperm.symm.subset hp), fun h p hp => h p (hperm.subset hp)⟩
  cases h1 : pyJsonPairs true f1 <;> cases h2 : pyJsonPairs true f2
  · simp [pyJson, h1, h2]
  · rw [h1, h2] at hmem
    simp at hmem
  · rw [h1, h2] at hmem
    simp at hmem
  · rename_i ps1 ps2
    have e1 := pyJsonPairs_eq_map h1
    have e2 := pyJsonPairs_eq_map h2
    have hpp : ps1.Perm ps2 := by
      rw [e1, e2]
      exact hperm.map _
    have hkeys1 : ps1.map Prod.fst = f1.map Prod.fst := by
      rw [e1, List.map_map]
      rfl
    have hnd1 : (ps1.map Prod.fst).Nodup := by rw [hkeys1]; exact hnodup
    have hsorteq : sortPairs ps1 = sortPairs ps2 := by
      have hp1 : (sortPairs ps1).Perm ps1 := List.perm_insertionSort pairLe ps1
      have hp2 : (sortPairs ps2).Perm ps2 := List.perm_insertionSort pairLe ps2
      have hs1 : (sortPairs ps1).Sorted pairLe := List.sorted_insertionSort pairLe ps1
      have hs2 : (sortPairs ps2).Sorted pairLe := List.sorted_insertionSort pairLe ps2
      have hnds1 : ((sortPairs ps1).map Prod.fst).Nodup :=
        ((hp1.map Prod.fst).nodup_iff).2 hnd1
      have hnds2 : ((sortPairs ps2).map Prod.fst).Nodup :=
        ((hp2.map Prod.fst).nodup_iff).2
          (((hpp.map Prod.fst).nodup_iff).1 hnd1)
      have hne1 : (sortPairs ps1).Pairwise (fun a b => a.1 ≠ b.1) :=
        List.pairwise_map.1 hnds1
      have hne2 : (sortPairs ps2).Pairwise (fun a b => a.1 ≠ b.1) :=
        List.pairwise_map.1 hnds2
      have hst1 : (sortPairs ps1).Sorted pairLt := hs1.and hne1
      have hst2 : (sortPairs ps2).Sorted pairLt := hs2.and hne2
      exact List.eq_of_perm_of_sorted (hp1.trans (hpp.trans hp2.symm)) hst1 hst2
    simp [pyJson, h1, h2, hsorteq]

/-- Updating a dict with a string value keeps it serializable. -/
theorem pyJsonPairs_dictSet_isSome {sk : Bool} {l : List (String × PyVal)}
    (h : (pyJsonPairs sk l).isSome) (k v : String) :
    (pyJsonPairs sk (dictSet l k (.pstr v))).isSome := by
  rw [pyJsonPairs_isSome_iff] at h ⊢
  intro p hp
  rcases mem_dictSet hp with hm | he
  · exact h p hm
  · rw [he]
    simp [pyJson]

theorem generate_key_isSome (ns : String) {l : List (String × PyVal)}
    (h : (pyJsonPairs true l).isSome) : (generate_key ns l).isSome := by
  rw [Option.isSome_iff_exists] at h
  rcases h with ⟨ps, hps⟩
  simp [generate_key, pyJson, hps]

/-! ## Lemmas: digest shape -/

theorem hexDigit_isHex : ∀ n : Fin 16, isHexChar (hexDigit n.val) = true := by decide

theorem byteHexChars_isHex {b : Nat} (hb : b < 256) :
    ∀ c ∈ byteHexChars b, isHexChar c = true := by
  intro c hc
  have h1 : b / 16 < 16 := by omega
  have h2 : b % 16 < 16 := by omega
  simp only [byteHexChars, List.mem_cons, List.not_mem_nil, or_false] at hc
  rcases hc with hc | hc
  · rw [hc]
    exact hexDigit_isHex ⟨b / 16, h1⟩
  · rw [hc]
    exact hexDigit_isHex ⟨b % 16, h2⟩

theorem wordLEHexChars_isHex (w : Nat) :
    ∀ c ∈ wordLEHexChars w, isHexChar c = true := by
  intro c hc
  simp only [wordLEHexChars, List.mem_append] at hc
  rcases hc with ((hc | hc) | hc) | hc
  · exact byteHexChars_isHex (Nat.mod_lt _ (by omega)) c hc
  · exact byteHexChars_isHex (Nat.mod_lt _ (by omega)) c hc
  · exact byteHexChars_isHex (Nat.mod_lt _ (by omega)) c hc
  · exact byteHexChars_isHex (Nat.mod_lt _ (by omega)) c hc

theorem md5HexChars_isHex (msg : List Nat) :
    ∀ c ∈ md5HexChars msg, isHexChar c = true := by
  intro c hc
  simp only [md5HexChars, List.mem_append] at hc
  rcases hc with ((hc | hc) | hc) | hc <;> exact wordLEHexChars_isHex _ c hc

theorem md5HexChars_length (msg : List Nat) : (md5HexChars msg).length = 32 := by
  simp [md5HexChars, wordLEHexChars, byteHexChars]

theorem strAppend_assoc (a b c : String) : a ++ b ++ c = a ++ (b ++ c) := by
  apply String.ext
  simp [List.append_assoc]

/-- The exact key shape produced by `_generate_key`. -/
theorem generate_key_shape {ns : String} {params : List (String × PyVal)} {k : String}
    (h : generate_key ns params = some k) :
    ∃ h8 : List Char, k = ("bulib:" ++ ns ++ ":") ++ String.mk h8 ∧
      h8.length = 8 ∧ ∀ c ∈ h8, isHexChar c = true := by
  cases hs : pyJson true (.pdict params) with
  | none => simp [generate_key, hs] at h
  | some s =>
    simp only [generate_key, hs, Option.some.injEq] at h
    refine ⟨(md5HexChars (utf8Bytes s)).take 8, ?_, ?_, ?_⟩
    · rw [← h, strAppend_assoc, strAppend_assoc]
    · simp only [List.length_take, md5HexChars_length]
      omega
    · intro c hc
      exact md5HexChars_isHex _ c (List.take_subset _ _ hc)

/-! ## Lemmas: substring matching -/

theorem isPrefixOf_append_self (l t : List Char) : l.isPrefixOf (l ++ t) = true := by
  induction l with
  | nil => simp
  | cons a as ih => simp [List.isPrefixOf, ih]

theorem listInfix_append_left (l t : List Char) : listInfix (l ++ t) l = true := by
  cases l with
  | nil =>
    cases t with
    | nil => rfl
    | cons c cs => simp [listInfix, List.isPrefixOf]
  | cons a as =>
    simp only [listInfix, List.cons_append]
    rw [show a :: (as ++ t) = (a :: as) ++ t from rfl, isPrefixOf_append_self]
    rfl

theorem strContains_append_left (p t : String) : strContains (p ++ t) p = true := by
  simp only [strContains, String.toList, String.data_append]
  exact listInfix_append_left _ _

/-! ## Lemmas: small facts about state updates -/

theorem self_mem_dictSet {α : Type} (m : List (String × α)) (k : String) (v : α) :
    (k, v) ∈ dictSet m k v := by
  induction m with
  | nil => simp [dictSet]
  | cons p rest ih =>
    by_cases hp : p.1 = k
    · simp [dictSet, hp]
    · simp only [dictSet, hp, if_neg, if_false]
      exact List.mem_cons_of_mem _ ih

theorem cmGetMem_frame (cm : CacheManager) (key : String) (now : Nat) :
    (cmGetMem cm key now).2.redis_client = cm.redis_client ∧
    (cmGetMem cm key now).2.default_ttl = cm.default_ttl := by
  unfold cmGetMem
  cases dictFind cm.memory_cache key
  · exact ⟨rfl, rfl⟩
  · dsimp only
    split
    · exact ⟨rfl, rfl⟩
    · exact ⟨rfl, rfl⟩

theorem cmGet_frame (cm : CacheManager) (key : String) (now : Nat) :
    (cmGet cm key now).2.redis_client = cm.redis_client ∧
    (cmGet cm key now).2.default_ttl = cm.default_ttl := by
  obtain ⟨rc, mem, dt⟩ := cm
  cases rc with
  | none => exact cmGetMem_frame ⟨none, mem, dt⟩ key now
  | some r =>
    simp only [cmGet]
    cases r.rget key
    · exact ⟨rfl, rfl⟩
    · exact cmGetMem_frame ⟨some r, mem, dt⟩ key now
    · exact ⟨rfl, rfl⟩

theorem cmSet_frame (cm : CacheManager) (key : String) (data : PyVal)
    (ttl : Option Nat) (now : Nat) :
    (cmSet cm key data ttl now).2.redis_client = cm.redis_client ∧
    (cmSet cm key data ttl now).2.default_ttl = cm.default_ttl := by
  obtain ⟨rc, mem, dt⟩ := cm
  simp only [cmSet]
  cases pyJson false data
  · exact ⟨rfl, rfl⟩
  · dsimp only
    cases rc
    · exact ⟨rfl, rfl⟩
    · dsimp only
      split
      · exact ⟨rfl, rfl⟩
      · exact ⟨rfl, rfl⟩

/-- The local-only write/read path: `set` with a serializable payload and a
nonzero ttl stores the entry and reports success, and a read at any time
strictly before expiry returns the stored object unchanged. -/
theorem localSetGet_aux (mem : List (String × MemEntry)) (dttl : Nat) (key : String)
    (v : PyVal) (s : String) (t now : Nat)
    (hser : pyJson false v = some s) (ht : 0 < t) :
    cmSet ⟨none, mem, dttl⟩ key v (some t) now
      = (true, ⟨none, dictSet mem key ⟨v, now + t⟩, dttl⟩) ∧
    ∀ now2, now2 < now + t →
      (cmGet ⟨none, dictSet mem key ⟨v, now + t⟩, dttl⟩ key now2).1 = some v := by
  constructor
  · simp only [cmSet, hser]
    rw [if_neg (by omega)]
  · intro now2 h2
    simp only [cmGet, cmGetMem, dictFind_dictSet]
    rw [if_pos (by omega)]

/-! ## Claim C1 -/

/-- The room payload and cache state of spec Scenario B
(`cacheRooms("mug", ...)` with empty filters). -/
def roomsPayload : PyVal := .pdict [("rooms", .plist [])]

def cmRoomsCached : CacheManager :=
  ⟨none, [("bulib:rooms:2b0f99f7", ⟨roomsPayload, 300⟩)], 300⟩

set_option maxRecDepth 100000 in
/-- C1: per-facility room invalidation does NOT work end to end. Cache keys
are `bulib:rooms:<hash>`, so the memory-tier substring test of
`clear_pattern` looks for `"bulib:rooms:building_idmug"` inside
`"bulib:rooms:2b0f99f7"` and never matches: `invalidate_rooms("mug")`
deletes nothing (count 0) and the subsequent `get_cached_rooms` still
returns the cached payload instead of a Miss (the bare-namespace pattern,
by contrast, does delete the entry). -/
theorem c1_invalidate_rooms_per_facility_noop :
    cache_rooms ⟨none, [], 300⟩ (.bstr "mug") roomsPayload (some []) 300 0
      = some (true, cmRoomsCached, some []) ∧
    invalidate_rooms cmRoomsCached (some (.bstr "mug")) = (0, cmRoomsCached) ∧
    (get_cached_rooms cmRoomsCached (.bstr "mug") (some []) 1).map (fun r => r.1)
      = some (some roomsPayload) ∧
    invalidate_rooms cmRoomsCached none = (1, ⟨none, [], 300⟩) := by
  refine ⟨?_, ?_, ?_, ?_⟩ <;> rfl

/-! ## Claim C2 -/

/-- A Remote backend on which every operation raises. -/
def failingRemote : RemoteModel :=
  ⟨fun _ => .err, fun _ _ _ => false, fun _ => none, fun _ => none⟩

/-- C2 counterexample: with a configured Remote whose `setex` raises,
`set` reports failure and even skips the Local write (the memory-cache
assignment textually follows the `setex` call inside the same `try`), so
the subsequent `get` misses — although the Local write alone would have
succeeded. -/
theorem c2_counterexample_remote_failure_fails_set :
    (cmSet ⟨some failingRemote, [], 300⟩ "k" (.pstr "v") (some 5) 0).1 = false ∧
    (cmSet ⟨some failingRemote, [], 300⟩ "k" (.pstr "v") (some 5) 0).2.memory_cache
      = [] ∧
    (cmGet (cmSet ⟨some failingRemote, [], 300⟩ "k" (.pstr "v") (some 5) 0).2 "k" 0).1
      = none :=
  ⟨rfl, rfl, rfl⟩

/-- C2 (amended): `set` returns Ok and the value is subsequently
readable via the Local tier whenever the Remote backend is ABSENT and the
payload serializes; but when a configured Remote write fails, `set`
returns failure and leaves the Local tier unwritten. -/
theorem c2_amended_set_ok_without_remote (mem : List (String × MemEntry))
    (dttl : Nat) (key : String) (v : PyVal) (s : String) (t now : Nat)
    (hser : pyJson false v = some s) (ht : 0 < t) :
    ((cmSet ⟨none, mem, dttl⟩ key v (some t) now).1 = true ∧
      (cmGet (cmSet ⟨none, mem, dttl⟩ key v (some t) now).2 key now).1 = some v) ∧
    ∀ r : RemoteModel, r.rsetex key t s = false →
      cmSet ⟨some r, mem, dttl⟩ key v (some t) now = (false, ⟨some r, mem, dttl⟩) := by
  obtain ⟨hset, hget⟩ := localSetGet_aux mem dttl key v s t now hser ht
  refine ⟨⟨?_, ?_⟩, ?_⟩
  · rw [hset]
  · rw [hset]
    exact hget now (by omega)
  · intro r hr
    simp only [cmSet, hser]
    rw [if_neg (show ¬ t = 0 from by omega)]
    rw [hr]
    simp

/-- C2 witness: the amended statement at `key = "k"`, `v = "v"`,
`ttl = 5`, `now = 0`, with `failingRemote` as the failing Remote. -/
theorem c2_amended_set_ok_without_remote_witness :
    ((cmSet ⟨none, [], 300⟩ "k" (.pstr "v") (some 5) 0).1 = true ∧
      (cmGet (cmSet ⟨none, [], 300⟩ "k" (.pstr "v") (some 5) 0).2 "k" 0).1
        = some (.pstr "v")) ∧
    cmSet ⟨some failingRemote, [], 300⟩ "k" (.pstr "v") (some 5) 0
      = (false, ⟨some failingRemote, [], 300⟩) :=
  ⟨(c2_amended_set_ok_without_remote [] 300 "k" (.pstr "v") "\"v\"" 5 0 rfl
      (by omega)).1,
   (c2_amended_set_ok_without_remote [] 300 "k" (.pstr "v") "\"v\"" 5 0 rfl
      (by omega)).2 failingRemote rfl⟩

/-! ## Claim C3 -/

/-- C3 counterexample: a Remote ERROR on `get` does NOT fall back to the
Local tier: the raised exception lands in the outer `except`, which
returns `None`, even though the memory tier holds an unexpired entry for
the key. -/
theorem c3_counterexample_remote_error_skips_local :
    dictFind (⟨some failingRemote, [("k", ⟨.pstr "v", 100⟩)], 300⟩ :
        CacheManager).memory_cache "k" = some ⟨.pstr "v", 100⟩ ∧
    (cmGet ⟨some failingRemote, [("k", ⟨.pstr "v", 100⟩)], 300⟩ "k" 0).1 = none :=
  ⟨rfl, rfl⟩

/-- C3 (amended): `get` tries Remote first and returns a hit without
consulting Local; on a Remote miss or an absent Remote it falls through
to the Local table (unexpired entry, else Miss); but on a Remote ERROR it
returns Miss immediately, without consulting Local. -/
theorem c3_amended_get_remote_first (mem : List (String × MemEntry)) (dttl : Nat)
    (key : String) (now : Nat) :
    (∀ (r : RemoteModel) (v : PyVal), r.rget key = .hit v →
      cmGet ⟨some r, mem, dttl⟩ key now = (some v, ⟨some r, mem, dttl⟩)) ∧
    (∀ r : RemoteModel, r.rget key = .err →
      cmGet ⟨some r, mem, dttl⟩ key now = (none, ⟨some r, mem, dttl⟩)) ∧
    (∀ r : RemoteModel, r.rget key = .miss →
      cmGet ⟨some r, mem, dttl⟩ key now = cmGetMem ⟨some r, mem, dttl⟩ key now) ∧
    cmGet ⟨none, mem, dttl⟩ key now = cmGetMem ⟨none, mem, dttl⟩ key now ∧
    (∀ e : MemEntry, dictFind mem key = some e → now < e.expires_at →
      (cmGetMem ⟨none, mem, dttl⟩ key now).1 = some e.data) ∧
    (dictFind mem key = none →
      cmGetMem ⟨none, mem, dttl⟩ key now = (none, ⟨none, mem, dttl⟩)) := by
  refine ⟨?_, ?_, ?_, rfl, ?_, ?_⟩
  · intro r v hr
    simp [cmGet, hr]
  · intro r hr
    simp [cmGet, hr]
  · intro r hr
    simp [cmGet, hr]
  · intro e he hlt
    simp [cmGetMem, he, hlt]
  · intro he
    simp [cmGetMem, he]

/-- A Remote that answers every `get` with a decoded hit. -/
def hitRemote : RemoteModel :=
  ⟨fun _ => .hit (.pstr "remote"), fun _ _ _ => true, fun _ => some [],
   fun _ => some 0⟩

/-- A Remote that answers every `get` with a miss. -/
def missRemote : RemoteModel :=
  ⟨fun _ => .miss, fun _ _ _ => true, fun _ => some [], fun _ => some 0⟩

/-- C3 witness: the amended statement at `key = "k"`, `now = 0`, with a
one-entry memory tier and the three concrete Remote behaviors. -/
theorem c3_amended_get_remote_first_witness :
    cmGet ⟨some hitRemote, [("k", ⟨.pstr "v", 100⟩)], 300⟩ "k" 0
      = (some (.pstr "remote"), ⟨some hitRemote, [("k", ⟨.pstr "v", 100⟩)], 300⟩) ∧
    cmGet ⟨some failingRemote, [("k", ⟨.pstr "v", 100⟩)], 300⟩ "k" 0
      = (none, ⟨some failingRemote, [("k", ⟨.pstr "v", 100⟩)], 300⟩) ∧
    cmGet ⟨some missRemote, [("k", ⟨.pstr "v", 100⟩)], 300⟩ "k" 0
      = cmGetMem ⟨some missRemote, [("k", ⟨.pstr "v", 100⟩)], 300⟩ "k" 0 ∧
    (cmGetMem ⟨none, [("k", ⟨.pstr "v", 100⟩)], 300⟩ "k" 0).1 = some (.pstr "v") :=
  ⟨(c3_amended_get_remote_first [("k", ⟨.pstr "v", 100⟩)] 300 "k" 0).1 hitRemote
      (.pstr "remote") rfl,
   (c3_amended_get_remote_first [("k", ⟨.pstr "v", 100⟩)] 300 "k" 0).2.1
      failingRemote rfl,
   (c3_amended_get_remote_first [("k", ⟨.pstr "v", 100⟩)] 300 "k" 0).2.2.1
      missRemote rfl,
   (c3_amended_get_remote_first [("k", ⟨.pstr "v", 100⟩)] 300 "k" 0).2.2.2.2.1
      ⟨.pstr "v", 100⟩ rfl (by decide)⟩

/-! ## Claim C4 -/

/-- C4 counterexample: a read helper CAN raise. `_generate_key` runs
`json.dumps(filters, sort_keys=True)` outside any try/except, so a
non-serializable filter value makes `get_cached_buildings` (not only
`set`) propagate the serialization failure to the caller. -/
theorem c4_counterexample_get_helper_raises :
    get_cached_buildings ⟨none, [], 300⟩ (some [("x", .pobj)]) 0 = none := rfl

/-- C4 (amended): backend-level errors are absorbed — for ANY cache
state, including one whose Remote raises on every operation, the domain
read helpers return normally whenever the filter mapping serializes; but
filter-serialization failures in key generation propagate as exceptions
from the read helpers (and the write helpers) alike, not only from `set`. -/
theorem c4_amended_backend_errors_absorbed (cm : CacheManager)
    (filters : List (String × PyVal)) (now : Nat)
    (hf : (pyJsonPairs true filters).isSome) :
    (∃ out, get_cached_buildings cm (some filters) now = some out) ∧
    (∃ out, get_cached_bookings cm (some filters) now = some out) ∧
    (∀ bid : BId, ∃ out, get_cached_rooms cm bid (some filters) now = some out) ∧
    get_cached_buildings cm (some [("x", .pobj)]) now = none := by
  refine ⟨?_, ?_, ?_, ?_⟩
  · obtain ⟨key, hk⟩ := Option.isSome_iff_exists.1 (generate_key_isSome "buildings" hf)
    exact ⟨cmGet cm key now, by simp [get_cached_buildings, hk]⟩
  · obtain ⟨key, hk⟩ := Option.isSome_iff_exists.1 (generate_key_isSome "bookings" hf)
    exact ⟨cmGet cm key now, by simp [get_cached_bookings, hk]⟩
  · intro bid
    obtain ⟨key, hk⟩ := Option.isSome_iff_exists.1
      (generate_key_isSome "rooms"
        (pyJsonPairs_dictSet_isSome hf "building_id" bid.str))
    refine ⟨?_, ?_⟩
    · exact ((cmGet cm key now).1, (cmGet cm key now).2,
        if filters.isEmpty then some filters
        else some (dictSet filters "building_id" (.pstr bid.str)))
    · simp only [get_cached_rooms, Option.getD_some, hk]
  · simp [get_cached_buildings, generate_key, pyJson, pyJsonPairs]

/-- C4 witness: the amended statement with the always-raising Remote,
filters `[("a", "b")]`, `now = 0`, and the rooms conjunct instantiated at
facility id 7. -/
theorem c4_amended_backend_errors_absorbed_witness :
    (∃ out, get_cached_buildings ⟨some failingRemote, [], 300⟩
        (some [("a", .pstr "b")]) 0 = some out) ∧
    (∃ out, get_cached_rooms ⟨some failingRemote, [], 300⟩ (.bint 7)
        (some [("a", .pstr "b")]) 0 = some out) ∧
    get_cached_buildings ⟨some failingRemote, [], 300⟩ (some [("x", .pobj)]) 0
      = none :=
  ⟨(c4_amended_backend_errors_absorbed ⟨some failingRemote, [], 300⟩
      [("a", .pstr "b")] 0 rfl).1,
   (c4_amended_backend_errors_absorbed ⟨some failingRemote, [], 300⟩
      [("a", .pstr "b")] 0 rfl).2.2.1 (.bint 7),
   (c4_amended_backend_errors_absorbed ⟨some failingRemote, [], 300⟩
      [("a", .pstr "b")] 0 rfl).2.2.2⟩

/-! ## Claim C5 -/

set_option maxRecDepth 100000 in
/-- C5 counterexample: the domain-helper TTLs are NOT fixed policy
constants — `ttl` is an ordinary keyword parameter. Passing `ttl=1` to
`cache_buildings` makes the entry expire 1 second after the write: it is
already gone at `now = 2`, far before the claimed fixed 600 seconds. -/
theorem c5_counterexample_caller_controls_ttl :
    cache_buildings ⟨none, [], 300⟩ (.pstr "d") (some []) 1 0
      = some (true, ⟨none, [("bulib:buildings:99914b93", ⟨.pstr "d", 1⟩)], 300⟩) ∧
    get_cached_buildings
        ⟨none, [("bulib:buildings:99914b93", ⟨.pstr "d", 1⟩)], 300⟩ (some []) 2
      = some (none, ⟨none, [], 300⟩) :=
  ⟨rfl, rfl⟩

/-- C5 (amended): 600 / 300 / 60 are DEFAULT ttl values, used when the
caller does not override them: called with the default, each domain write
helper stores an entry expiring exactly 600 (buildings), 300 (rooms),
resp. 60 (bookings) seconds after the write, independent of the manager's
`default_ttl`; but the caller can pass any other ttl. -/
theorem c5_amended_default_ttls (mem : List (String × MemEntry)) (dttl : Nat)
    (data : PyVal) (sd : String) (filters : List (String × PyVal)) (now : Nat)
    (hd : pyJson false data = some sd)
    (hf : (pyJsonPairs true filters).isSome) :
    (∃ keyB, generate_key "buildings" filters = some keyB ∧
      cache_buildings ⟨none, mem, dttl⟩ data (some filters) 600 now
        = some (true, ⟨none, dictSet mem keyB ⟨data, now + 600⟩, dttl⟩)) ∧
    (∀ bid : BId, ∃ keyR caf,
      generate_key "rooms" (dictSet filters "building_id" (.pstr bid.str))
        = some keyR ∧
      cache_rooms ⟨none, mem, dttl⟩ bid data (some filters) 300 now
        = some (true, ⟨none, dictSet mem keyR ⟨data, now + 300⟩, dttl⟩, caf)) ∧
    (∃ keyK, generate_key "bookings" filters = some keyK ∧
      cache_bookings ⟨none, mem, dttl⟩ data (some filters) 60 now
        = some (true, ⟨none, dictSet mem keyK ⟨data, now + 60⟩, dttl⟩)) := by
  refine ⟨?_, ?_, ?_⟩
  · obtain ⟨keyB, hk⟩ := Option.isSome_iff_exists.1 (generate_key_isSome "buildings" hf)
    refine ⟨keyB, hk, ?_⟩
    simp only [cache_buildings, Option.getD_some, hk]
    rw [(localSetGet_aux mem dttl keyB data sd 600 now hd (by omega)).1]
  · intro bid
    obtain ⟨keyR, hk⟩ := Option.isSome_iff_exists.1
      (generate_key_isSome "rooms"
        (pyJsonPairs_dictSet_isSome hf "building_id" bid.str))
    refine ⟨keyR,
      if filters.isEmpty then some filters
      else some (dictSet filters "building_id" (.pstr bid.str)), hk, ?_⟩
    simp only [cache_rooms, Option.getD_some, hk]
    rw [(localSetGet_aux mem dttl keyR data sd 300 now hd (by omega)).1]
  · obtain ⟨keyK, hk⟩ := Option.isSome_iff_exists.1 (generate_key_isSome "bookings" hf)
    refine ⟨keyK, hk, ?_⟩
    simp only [cache_bookings, Option.getD_some, hk]
    rw [(localSetGet_aux mem dttl keyK data sd 60 now hd (by omega)).1]

/-- C5 witness: the amended statement at empty filters, payload `"d"`,
`now = 0`, with the rooms conjunct instantiated at facility `"mug"`. -/
theorem c5_amended_default_ttls_witness :
    (∃ keyB, generate_key "buildings" [] = some keyB ∧
      cache_buildings ⟨none, [], 300⟩ (.pstr "d") (some []) 600 0
        = some (true, ⟨none, dictSet [] keyB ⟨.pstr "d", 600⟩, 300⟩)) ∧
    (∃ keyR caf,
      generate_key "rooms" (dictSet [] "building_id" (.pstr (BId.bstr "mug").str))
        = some keyR ∧
      cache_rooms ⟨none, [], 300⟩ (.bstr "mug") (.pstr "d") (some []) 300 0
        = some (true, ⟨none, dictSet [] keyR ⟨.pstr "d", 300⟩, 300⟩, caf)) ∧
    (∃ keyK, generate_key "bookings" [] = some keyK ∧
      cache_bookings ⟨none, [], 300⟩ (.pstr "d") (some []) 60 0
        = some (true, ⟨none, dictSet [] keyK ⟨.pstr "d", 60⟩, 300⟩)) :=
  ⟨(c5_amended_default_ttls [] 300 (.pstr "d") "\"d\"" [] 0 rfl rfl).1,
   (c5_amended_default_ttls [] 300 (.pstr "d") "\"d\"" [] 0 rfl rfl).2.1
      (.bstr "mug"),
   (c5_amended_default_ttls [] 300 (.pstr "d") "\"d\"" [] 0 rfl rfl).2.2⟩

/-! ## Claim C6 -/

/-- C6: an entry whose `expires_at` is at or before the current time is
never served: in local-only mode `get` reports Miss and lazily deletes
the expired entry from the memory table. -/
theorem c6_expired_never_served_lazily_evicted (mem : List (String × MemEntry))
    (dttl : Nat) (key : String) (now : Nat) (e : MemEntry)
    (hfind : dictFind mem key = some e) (hexp : e.expires_at ≤ now) :
    cmGet ⟨none, mem, dttl⟩ key now = (none, ⟨none, dictErase mem key, dttl⟩) := by
  simp only [cmGet, cmGetMem, hfind]
  rw [if_neg (by omega)]

set_option maxRecDepth 100000 in
/-- C6 witness: spec Scenario A — `{"name": "Mugar"}` cached under the
facilities namespace with ttl 600 at `t = 0`; the read at `t = 601`
returns Miss and removes the entry. -/
theorem c6_expired_never_served_lazily_evicted_witness :
    cache_buildings ⟨none, [], 300⟩ (.pdict [("name", .pstr "Mugar")]) (some []) 600 0
      = some (true, ⟨none,
          [("bulib:buildings:99914b93", ⟨.pdict [("name", .pstr "Mugar")], 600⟩)],
          300⟩) ∧
    cmGet ⟨none,
        [("bulib:buildings:99914b93", ⟨.pdict [("name", .pstr "Mugar")], 600⟩)],
        300⟩ "bulib:buildings:99914b93" 601
      = (none, ⟨none, [], 300⟩) :=
  ⟨rfl,
   c6_expired_never_served_lazily_evicted
     [("bulib:buildings:99914b93", ⟨.pdict [("name", .pstr "Mugar")], 600⟩)]
     300 "bulib:buildings:99914b93" 601 ⟨.pdict [("name", .pstr "Mugar")], 600⟩
     rfl (by decide)⟩

/-! ## Claim C8 -/

/-- C8: the round-trip property — in local-only mode, `set(key, value,
ttl)` with a serializable value and `ttl > 0` reports success, and an
immediate `get(key)` returns the stored value unchanged. -/
theorem c8_set_get_roundtrip (mem : List (String × MemEntry)) (dttl : Nat)
    (key : String) (v : PyVal) (s : String) (t now : Nat)
    (hser : pyJson false v = some s) (ht : 0 < t) :
    (cmSet ⟨none, mem, dttl⟩ key v (some t) now).1 = true ∧
    (cmGet (cmSet ⟨none, mem, dttl⟩ key v (some t) now).2 key now).1 = some v := by
  obtain ⟨hset, hget⟩ := localSetGet_aux mem dttl key v s t now hser ht
  rw [hset]
  exact ⟨rfl, hget now (by omega)⟩

/-- C8 witness: the round-trip at `key = "k"`, value `{"rooms": []}`,
`ttl = 5`, `now = 0`. -/
theorem c8_set_get_roundtrip_witness :
    (cmSet ⟨none, [], 300⟩ "k" roomsPayload (some 5) 0).1 = true ∧
    (cmGet (cmSet ⟨none, [], 300⟩ "k" roomsPayload (some 5) 0).2 "k" 0).1
      = some roomsPayload :=
  c8_set_get_roundtrip [] 300 "k" roomsPayload "\x7b\"rooms\": []\x7d" 5 0 rfl
    (by omega)

/-! ## Claim C7 -/

/-- C7: key derivation is insensitive to filter insertion order — two
filter dicts with the same bindings (unique keys, any order) derive the
same key — and every derived key is the application prefix `bulib`, the
namespace, and 8 lowercase-hex characters of the md5 of the key-sorted
canonical serialization. -/
theorem c7_key_derivation_canonical (ns : String) (f1 f2 : List (String × PyVal))
    (hperm : f1.Perm f2) (hnodup : (f1.map Prod.fst).Nodup) :
    generate_key ns f1 = generate_key ns f2 ∧
    (∀ k, generate_key ns f1 = some k →
      ∃ h8 : List Char, k = ("bulib:" ++ ns ++ ":") ++ String.mk h8 ∧
        h8.length = 8 ∧ ∀ c ∈ h8, isHexChar c = true) := by
  constructor
  · unfold generate_key
    rw [pyJson_pdict_perm hperm hnodup]
  · intro k hk
    exact generate_key_shape hk

set_option maxRecDepth 100000 in
/-- C7 witness: the filters `{"a": "x", "b": 1}` written in both insertion
orders derive the same key, and the key `bulib:rooms:19afc294` they derive
has the stated prefix/namespace/8-hex-char form. -/
theorem c7_key_derivation_canonical_witness :
    generate_key "rooms" [("a", .pstr "x"), ("b", .pint 1)]
      = generate_key "rooms" [("b", .pint 1), ("a", .pstr "x")] ∧
    (∃ h8 : List Char, "bulib:rooms:19afc294" = ("bulib:" ++ "rooms" ++ ":") ++ String.mk h8 ∧
      h8.length = 8 ∧ ∀ c ∈ h8, isHexChar c = true) :=
  ⟨(c7_key_derivation_canonical "rooms" [("a", .pstr "x"), ("b", .pint 1)]
      [("b", .pint 1), ("a", .pstr "x")]
      (List.Perm.swap ("b", PyVal.pint 1) ("a", PyVal.pstr "x") [])
      (by simp)).1,
   (c7_key_derivation_canonical "rooms" [("a", .pstr "x"), ("b", .pint 1)]
      [("b", .pint 1), ("a", .pstr "x")]
      (List.Perm.swap ("b", PyVal.pint 1) ("a", PyVal.pstr "x") [])
      (by simp)).2 "bulib:rooms:19afc294" rfl⟩

/-! ## Claim C9 -/

/-- C9: whole-namespace invalidation works — after `cache_bookings`, the
pattern `bulib:bookings:*` reduces to the substring `bulib:bookings:`,
which every bookings key starts with, so `invalidate_bookings` deletes
every bookings-namespace entry from the memory tier, returns the number
of deletion operations performed (at least 1), and the subsequent
`get_cached_bookings` with the same filters is a Miss. -/
theorem c9_invalidate_bookings_namespace (mem : List (String × MemEntry))
    (dttl : Nat) (data : PyVal) (sd : String) (filters : List (String × PyVal))
    (now : Nat) (hd : pyJson false data = some sd)
    (hf : (pyJsonPairs true filters).isSome) :
    ∃ key cm1 cnt cm2,
      generate_key "bookings" filters = some key ∧
      cache_bookings ⟨none, mem, dttl⟩ data (some filters) 60 now
        = some (true, cm1) ∧
      invalidate_bookings cm1 = (cnt, cm2) ∧
      1 ≤ cnt ∧
      cnt = (cm1.memory_cache.filter
        (fun p => strContains p.1 "bulib:bookings:")).length ∧
      (∀ p ∈ cm2.memory_cache, strContains p.1 "bulib:bookings:" = false) ∧
      (∀ t2, get_cached_bookings cm2 (some filters) t2 = some (none, cm2)) := by
  obtain ⟨key, hk⟩ := Option.isSome_iff_exists.1 (generate_key_isSome "bookings" hf)
  obtain ⟨h8, hshape, _, _⟩ := generate_key_shape hk
  have hcont : strContains key "bulib:bookings:" = true := by
    rw [hshape]
    exact strContains_append_left _ _
  refine ⟨key, ⟨none, dictSet mem key ⟨data, now + 60⟩, dttl⟩,
    ((dictSet mem key ⟨data, now + 60⟩).filter
      (fun p => strContains p.1 "bulib:bookings:")).length,
    ⟨none, (dictSet mem key ⟨data, now + 60⟩).filter
      (fun p => !strContains p.1 "bulib:bookings:"), dttl⟩,
    hk, ?_, ?_, ?_, rfl, ?_, ?_⟩
  · simp only [cache_bookings, Option.getD_some, hk]
    rw [(localSetGet_aux mem dttl key data sd 60 now hd (by omega)).1]
  · have hsub : pyReplace "bulib:bookings:*" "*" "" = "bulib:bookings:" := rfl
    simp [invalidate_bookings, cmClearPattern, hsub]
  · have hm : (key, (⟨data, now + 60⟩ : MemEntry)) ∈
        (dictSet mem key ⟨data, now + 60⟩).filter
          (fun p => strContains p.1 "bulib:bookings:") :=
      List.mem_filter.2 ⟨self_mem_dictSet mem key _, hcont⟩
    have := List.length_pos.2 (List.ne_nil_of_mem hm)
    omega
  · intro p hp
    have := (List.mem_filter.1 hp).2
    simpa using this
  · intro t2
    simp only [get_cached_bookings, Option.getD_some, hk]
    have hnone : dictFind ((dictSet mem key ⟨data, now + 60⟩).filter
        (fun p => !strContains p.1 "bulib:bookings:")) key = none := by
      apply dictFind_eq_none
      intro p hp hkey
      have hnc := (List.mem_filter.1 hp).2
      rw [hkey, hcont] at hnc
      simp at hnc
    simp [cmGet, cmGetMem, hnone]

/-- C9 witness: spec Scenario C — bookings data cached with filters
`{"date": "2024-01-01"}`, then `invalidate_bookings()` and a re-read. -/
theorem c9_invalidate_bookings_namespace_witness :
    ∃ key cm1 cnt cm2,
      generate_key "bookings" [("date", .pstr "2024-01-01")] = some key ∧
      cache_bookings ⟨none, [], 300⟩ roomsPayload
          (some [("date", .pstr "2024-01-01")]) 60 0 = some (true, cm1) ∧
      invalidate_bookings cm1 = (cnt, cm2) ∧
      1 ≤ cnt ∧
      cnt = (cm1.memory_cache.filter
        (fun p => strContains p.1 "bulib:bookings:")).length ∧
      (∀ p ∈ cm2.memory_cache, strContains p.1 "bulib:bookings:" = false) ∧
      (∀ t2, get_cached_bookings cm2 (some [("date", .pstr "2024-01-01")]) t2
        = some (none, cm2)) :=
  c9_invalidate_bookings_namespace [] 300 roomsPayload "\x7b\"rooms\": []\x7d"
    [("date", PyVal.pstr "2024-01-01")] 0 rfl rfl

/-! ## Claim C10 -/

/-- C10 counterexample: the room helpers do NOT mutate every caller
mapping. For an empty (falsy) caller dict, `filters = filters or \x7b\x7d`
rebinds the local name to a fresh dict, so the `building_id` insertion
lands in the fresh dict and the caller's mapping stays empty. -/
theorem c10_counterexample_empty_dict_not_mutated :
    (cache_rooms ⟨none, [], 300⟩ (.bstr "1") (.pdict []) (some []) 300 0).map
      (fun r => r.2.2) = some (some []) ∧
    (get_cached_rooms ⟨none, [], 300⟩ (.bstr "1") (some []) 0).map
      (fun r => r.2.2) = some (some []) :=
  ⟨rfl, rfl⟩

/-- C10 (amended): for every NONEMPTY caller filter mapping, both room
helpers insert `building_id ↦ str(facilityId)` into the caller's mapping
in place (overwriting any caller-supplied binding); for an empty caller
mapping the helpers work on a fresh dict and leave the caller's mapping
untouched; apart from the memory tier, no other cache-manager state is
modified. -/
theorem c10_amended_rooms_filters_mutation (cm : CacheManager) (bid : BId)
    (l : List (String × PyVal)) (data : PyVal) (ttl now : Nat)
    (hne : l ≠ [])
    (hf : (pyJsonPairs true (dictSet l "building_id" (.pstr bid.str))).isSome) :
    (∃ res cm2, get_cached_rooms cm bid (some l) now
        = some (res, cm2, some (dictSet l "building_id" (.pstr bid.str))) ∧
      cm2.redis_client = cm.redis_client ∧ cm2.default_ttl = cm.default_ttl) ∧
    (∃ ok cm2, cache_rooms cm bid data (some l) ttl now
        = some (ok, cm2, some (dictSet l "building_id" (.pstr bid.str))) ∧
      cm2.redis_client = cm.redis_client ∧ cm2.default_ttl = cm.default_ttl) ∧
    dictFind (dictSet l "building_id" (.pstr bid.str)) "building_id"
      = some (.pstr bid.str) ∧
    (get_cached_rooms cm bid (some []) now).map (fun r => r.2.2)
      = some (some []) := by
  have hie : l.isEmpty = false := by
    cases l with
    | nil => exact absurd rfl hne
    | cons a as => rfl
  obtain ⟨key, hk⟩ := Option.isSome_iff_exists.1 (generate_key_isSome "rooms" hf)
  refine ⟨?_, ?_, dictFind_dictSet l "building_id" (.pstr bid.str), ?_⟩
  · refine ⟨(cmGet cm key now).1, (cmGet cm key now).2, ?_, cmGet_frame cm key now⟩
    simp [get_cached_rooms, hk, hie]
  · refine ⟨(cmSet cm key data (some ttl) now).1,
      (cmSet cm key data (some ttl) now).2, ?_,
      cmSet_frame cm key data (some ttl) now⟩
    simp [cache_rooms, hk, hie]
  · have hf0 : (pyJsonPairs true (dictSet ([] : List (String × PyVal))
        "building_id" (.pstr bid.str))).isSome := by
      simp [dictSet, pyJsonPairs, pyJson]
    obtain ⟨key0, hk0⟩ := Option.isSome_iff_exists.1
      (generate_key_isSome "rooms" hf0)
    simp [get_cached_rooms, hk0]

/-- C10 witness: the amended statement at facility id 9 (an int,
stringified to `"9"`), the nonempty caller mapping `{"floor": "2"}`, and
an empty caller mapping. -/
theorem c10_amended_rooms_filters_mutation_witness :
    (∃ res cm2, get_cached_rooms ⟨none, [], 300⟩ (.bint 9)
        (some [("floor", PyVal.pstr "2")]) 0
        = some (res, cm2, some (dictSet [("floor", PyVal.pstr "2")] "building_id"
            (PyVal.pstr (BId.bint 9).str))) ∧
      cm2.redis_client = (⟨none, [], 300⟩ : CacheManager).redis_client ∧
      cm2.default_ttl = (⟨none, [], 300⟩ : CacheManager).default_ttl) ∧
    (∃ ok cm2, cache_rooms ⟨none, [], 300⟩ (.bint 9) (PyVal.pstr "d")
        (some [("floor", PyVal.pstr "2")]) 300 0
        = some (ok, cm2, some (dictSet [("floor", PyVal.pstr "2")] "building_id"
            (PyVal.pstr (BId.bint 9).str))) ∧
      cm2.redis_client = (⟨none, [], 300⟩ : CacheManager).redis_client ∧
      cm2.default_ttl = (⟨none, [], 300⟩ : CacheManager).default_ttl) ∧
    dictFind (dictSet [("floor", PyVal.pstr "2")] "building_id"
        (PyVal.pstr (BId.bint 9).str)) "building_id" = some (PyVal.pstr (BId.bint 9).str) ∧
    (get_cached_rooms ⟨none, [], 300⟩ (.bint 9) (some []) 0).map (fun r => r.2.2)
      = some (some []) :=
  c10_amended_rooms_filters_mutation ⟨none, [], 300⟩ (.bint 9)
    [("floor", PyVal.pstr "2")] (PyVal.pstr "d") 300 0 (List.cons_ne_nil _ _) rfl

end BuLib
